import Mathlib

/-!
Shallow embedding of the moving-paddles game (`src/main.rs`), together with
theorems checking the specification's claims against it.

Rust `i16` coordinates are modelled as `Int` (no arithmetic in the reachable
states comes near the `i16` range); Rust `rem_euclid` is `Int.emod`; the
`VecDeque<Segment>` paddle body is a `List Segment` with its front at the
head and its back at the end.
-/

/-- `GRID_SIZE`: the game board is 30 × 20 grid cells. -/
def GRID_SIZE : Int × Int := (30, 20)

/-- `DESIRED_FPS`: the fixed simulation rate, 23 ticks per second. -/
def DESIRED_FPS : Nat := 23

/-- `GridPosition`: an entity's position on the game board. -/
structure GridPosition where
  x : Int
  y : Int
deriving DecidableEq, Repr

/-- `GridPosition::new`. -/
def GridPosition.new (x y : Int) : GridPosition :=
  { x := x, y := y }

/-- `Direction`: the possible movement directions. -/
inductive Direction where
  | None
  | Up
  | Down
  | Left
  | Right
deriving DecidableEq, Repr, Fintype

/-- `GridPosition::new_from_move`: one move from `pos` in direction `dir`,
coordinates wrapped with `rem_euclid` against the grid dimensions (`%` on
`Int` is `Int.emod`, the Euclidean remainder, which agrees with Rust's
`rem_euclid` for the positive grid moduli). -/
def GridPosition.new_from_move (pos : GridPosition) (dir : Direction) : GridPosition :=
  match dir with
  | Direction.None => pos
  | Direction.Up => GridPosition.new pos.x ((pos.y - 1) % GRID_SIZE.2)
  | Direction.Down => GridPosition.new pos.x ((pos.y + 1) % GRID_SIZE.2)
  | Direction.Left => GridPosition.new ((pos.x - 1) % GRID_SIZE.1) pos.y
  | Direction.Right => GridPosition.new ((pos.x + 1) % GRID_SIZE.1) pos.y

/-- `Direction::inverse`. -/
def Direction.inverse : Direction → Direction
  | Direction.None => Direction.None
  | Direction.Up => Direction.Down
  | Direction.Down => Direction.Up
  | Direction.Left => Direction.Right
  | Direction.Right => Direction.Left

/-- The ggez keycodes the game reacts to; every other key is `Other`. -/
inductive KeyCode where
  | Up
  | Down
  | Left
  | Right
  | W
  | S
  | Other
deriving DecidableEq, Repr

/-- `Direction::from_keycode`. -/
def Direction.from_keycode : KeyCode → Option Direction
  | KeyCode.Up => some Direction.Up
  | KeyCode.Down => some Direction.Down
  | KeyCode.W => some Direction.Up
  | KeyCode.S => some Direction.Down
  | KeyCode.Left => some Direction.Left
  | KeyCode.Right => some Direction.Right
  | KeyCode.Other => none

/-- `Direction::from_keycode_player_number`. -/
def Direction.from_keycode_player_number : KeyCode → Option Nat
  | KeyCode.Up => some 2
  | KeyCode.Down => some 2
  | KeyCode.Left => some 2
  | KeyCode.Right => some 2
  | KeyCode.W => some 1
  | KeyCode.S => some 1
  | KeyCode.Other => none

/-- `Segment`: one cell of a paddle's body. -/
structure Segment where
  pos : GridPosition
deriving DecidableEq, Repr

/-- `Segment::new`. -/
def Segment.new (pos : GridPosition) : Segment :=
  { pos := pos }

/-- `Ball`: a grid position plus the direction it is moving. -/
structure Ball where
  pos : GridPosition
  dir : Direction
deriving DecidableEq, Repr

/-- `Ball::new`: direction fixed to `Left`. -/
def Ball.new (pos : GridPosition) : Ball :=
  { pos := pos, dir := Direction.Left }

/-- `Padle`: the body deque (front at list head, back at list end) and the
pending movement direction. -/
structure Padle where
  body : List Segment
  dir : Direction
deriving DecidableEq, Repr

/-- `Padle::new`: 5 segments sharing `pos.x`, with y-coordinates
`pos.y - seg_number` for `seg_number` in `0..5`, pushed back in order. -/
def Padle.new (pos : GridPosition) : Padle :=
  { body := (List.range 5).map (fun seg_number =>
      Segment.new (GridPosition.new pos.x (pos.y - seg_number))),
    dir := Direction.None }

/-- `Padle::meats_ball`: true iff some body segment's position equals the
ball's position. -/
def Padle.meats_ball (p : Padle) (ball : Ball) : Bool :=
  p.body.any fun seg => seg.pos = ball.pos

/-- `Padle::update`: the two sequential `if` blocks of the source. `Up`
pushes a new back one step up from the old back and pops the front; `Down`
pushes a new front one step down from the old front and pops the back; in
both cases `dir` is reset to `None`. After the `Up` branch runs, `dir` is
`None`, so the `Down` branch (which re-tests `dir`) cannot also fire. -/
def Padle.update (p : Padle) : Padle :=
  let p1 :=
    if p.dir = Direction.Up then
      match p.body.getLast? with
      | some back =>
          { body := (p.body ++ [Segment.new (GridPosition.new_from_move back.pos p.dir)]).tail,
            dir := Direction.None }
      | none => p
    else p
  if p1.dir = Direction.Down then
    match p1.body.head? with
    | some front =>
        { body := (Segment.new (GridPosition.new_from_move front.pos p1.dir) :: p1.body).dropLast,
          dir := Direction.None }
    | none => p1
  else p1

/-- The collision block that `Ball::update` repeats for each paddle: if the
paddle occupies the ball's cell, invert the direction and move one more cell
in the new direction. -/
def Ball.bounce (pad : Padle) (b : Ball) : Ball :=
  if pad.meats_ball b then
    let d := b.dir.inverse
    { pos := GridPosition.new_from_move b.pos d, dir := d }
  else b

/-- `Ball::update`: move one cell in the current direction, then run the
collision block against `padle1`, then against `padle2`. -/
def Ball.update (b : Ball) (padle1 padle2 : Padle) : Ball :=
  let b1 : Ball := { b with pos := GridPosition.new_from_move b.pos b.dir }
  Ball.bounce padle2 (Ball.bounce padle1 b1)

/-- `GameState`: the root aggregate. The RNG is used only at construction
and is not part of the modelled state. -/
structure GameState where
  padle1 : Padle
  padle2 : Padle
  ball : Ball
  gameover : Bool
deriving DecidableEq, Repr

/-- `GameState::new`, with the ball position injected. The source draws
`ball_pos` from an `oorandom::Rand32` seeded with all-zero bytes (the RNG is
an external crate, not part of this repository's sources); the paddles are
placed at the left and right columns, vertically at `GRID_SIZE.1 / 2`. -/
def GameState.new (ball_pos : GridPosition) : GameState :=
  { padle1 := Padle.new (GridPosition.new 0 (GRID_SIZE.2 / 2)),
    padle2 := Padle.new (GridPosition.new (GRID_SIZE.1 - 1) (GRID_SIZE.2 / 2)),
    ball := Ball.new ball_pos,
    gameover := false }

/-- One fixed simulation tick of `GameState::update`: if not game over,
update `padle1`, then `padle2`, then the ball against the updated paddles. -/
def GameState.updateTick (g : GameState) : GameState :=
  if g.gameover then g
  else
    let p1 := g.padle1.update
    let p2 := g.padle2.update
    { g with padle1 := p1, padle2 := p2, ball := g.ball.update p1 p2 }

/-- `GameState::key_down_event`: resolve the player number and the direction
from the keycode; if both resolve, store the direction in that player's
paddle. -/
def GameState.key_down_event (g : GameState) (key : KeyCode) : GameState :=
  match Direction.from_keycode_player_number key with
  | some player_number =>
      match Direction.from_keycode key with
      | some dir =>
          let g1 :=
            if player_number = 1 then { g with padle1 := { g.padle1 with dir := dir } } else g
          if player_number = 2 then { g1 with padle2 := { g1.padle2 with dir := dir } } else g1
      | none => g
  | none => g

/-- C9: `Direction::inverse` is a total involution, with `None` fixed and
`Up`/`Down` and `Left`/`Right` swapped. -/
theorem direction_inverse_involutive :
    (∀ d : Direction, d.inverse.inverse = d) ∧
    Direction.None.inverse = Direction.None ∧
    Direction.Up.inverse = Direction.Down ∧
    Direction.Down.inverse = Direction.Up ∧
    Direction.Left.inverse = Direction.Right ∧
    Direction.Right.inverse = Direction.Left := by
  decide

/-- C2: for the paddle at x = 0 with front-to-back y-coordinates
[10, 9, 8, 7, 6], setting `dir := Up` and updating once yields
[9, 8, 7, 6, 5], while setting `dir := Down` instead yields
[11, 10, 9, 8, 7]: the contiguous body is shifted by one cell vertically. -/
theorem padle_up_down_shift_concrete :
    (({ Padle.new (GridPosition.new 0 10) with dir := Direction.Up }).update.body.map
        fun (s : Segment) => s.pos) =
      [GridPosition.new 0 9, GridPosition.new 0 8, GridPosition.new 0 7,
        GridPosition.new 0 6, GridPosition.new 0 5] ∧
    (({ Padle.new (GridPosition.new 0 10) with dir := Direction.Down }).update.body.map
        fun (s : Segment) => s.pos) =
      [GridPosition.new 0 11, GridPosition.new 0 10, GridPosition.new 0 9,
        GridPosition.new 0 8, GridPosition.new 0 7] := by
  decide

/-- Helper: `Padle::update` never changes the body length (each branch pushes
one segment and pops one; with an empty body neither branch changes it). -/
theorem Padle.update_body_length (p : Padle) : p.update.body.length = p.body.length := by
  simp only [Padle.update]
  repeat' split
  all_goals simp [List.length_tail, List.length_dropLast]

/-- Helper: with `dir = Up` and a nonempty body, `Padle::update` resets
`dir` to `None`. -/
theorem Padle.update_dir_up (p : Padle) (h : p.dir = Direction.Up) (hb : p.body ≠ []) :
    p.update.dir = Direction.None := by
  rcases hl : p.body.getLast? with _ | back
  · exact absurd (List.getLast?_eq_none_iff.mp hl) hb
  · simp [Padle.update, h, hl]

/-- Helper: with `dir` neither `Up` nor `Down`, `Padle::update` is the
identity. -/
theorem Padle.update_of_dir_not_ud (p : Padle) (h1 : p.dir ≠ Direction.Up)
    (h2 : p.dir ≠ Direction.Down) : p.update = p := by
  simp [Padle.update, h1, h2]

/-- C3: a paddle built by `Padle::new` still has body length exactly 5 after
any number of `Padle::update` calls. -/
theorem padle_body_length_invariant (pos : GridPosition) (n : Nat) :
    (Padle.update^[n] (Padle.new pos)).body.length = 5 := by
  induction n with
  | zero => rfl
  | succ k ih =>
      rw [Function.iterate_succ_apply', Padle.update_body_length]
      exact ih

/-- C4 counterexample: for the out-of-range position (30, 0) and direction
`None`, `new_from_move` is the identity, so the resulting x-coordinate is 30,
outside `[0, GRID_WIDTH)`: the claim fails without an in-range hypothesis on
the input position. -/
theorem new_from_move_bounds_cex :
    ¬ (0 ≤ (GridPosition.new_from_move (GridPosition.new 30 0) Direction.None).x ∧
       (GridPosition.new_from_move (GridPosition.new 30 0) Direction.None).x < GRID_SIZE.1) := by
  decide

/-- C4 (amended): for every position whose coordinates are in range and every
direction, `new_from_move` returns a position with x in `[0, GRID_WIDTH)` and
y in `[0, GRID_HEIGHT)`. -/
theorem new_from_move_in_bounds (p : GridPosition) (d : Direction)
    (hx : 0 ≤ p.x ∧ p.x < GRID_SIZE.1) (hy : 0 ≤ p.y ∧ p.y < GRID_SIZE.2) :
    (0 ≤ (GridPosition.new_from_move p d).x ∧
      (GridPosition.new_from_move p d).x < GRID_SIZE.1) ∧
    (0 ≤ (GridPosition.new_from_move p d).y ∧
      (GridPosition.new_from_move p d).y < GRID_SIZE.2) := by
  obtain ⟨hx0, hx1⟩ := hx
  obtain ⟨hy0, hy1⟩ := hy
  simp only [GRID_SIZE] at *
  cases d <;> simp only [GridPosition.new_from_move, GridPosition.new, GRID_SIZE] <;>
    refine ⟨⟨?_, ?_⟩, ?_, ?_⟩ <;> omega

/-- Witness for C4 (amended) at position (5, 5) moving `Left`. -/
theorem new_from_move_in_bounds_witness :
    ((0 ≤ (GridPosition.new 5 5).x ∧ (GridPosition.new 5 5).x < GRID_SIZE.1) ∧
     (0 ≤ (GridPosition.new 5 5).y ∧ (GridPosition.new 5 5).y < GRID_SIZE.2)) ∧
    ((0 ≤ (GridPosition.new_from_move (GridPosition.new 5 5) Direction.Left).x ∧
      (GridPosition.new_from_move (GridPosition.new 5 5) Direction.Left).x < GRID_SIZE.1) ∧
     (0 ≤ (GridPosition.new_from_move (GridPosition.new 5 5) Direction.Left).y ∧
      (GridPosition.new_from_move (GridPosition.new 5 5) Direction.Left).y < GRID_SIZE.2)) :=
  ⟨⟨⟨by decide, by decide⟩, ⟨by decide, by decide⟩⟩,
   new_from_move_in_bounds (GridPosition.new 5 5) Direction.Left
     ⟨by decide, by decide⟩ ⟨by decide, by decide⟩⟩

/-- C8: `Padle::new pos` builds 5 segments sharing `pos.x` with front-to-back
y-coordinates `pos.y, pos.y - 1, pos.y - 2, pos.y - 3, pos.y - 4`, computed by
raw subtraction; in particular a paddle constructed at (0, 0) (where
`pos.y < 4`) contains segments with negative y. -/
theorem padle_new_body_spec (pos : GridPosition) :
    ((Padle.new pos).body.map fun (s : Segment) => s.pos) =
      [GridPosition.new pos.x pos.y, GridPosition.new pos.x (pos.y - 1),
       GridPosition.new pos.x (pos.y - 2), GridPosition.new pos.x (pos.y - 3),
       GridPosition.new pos.x (pos.y - 4)] ∧
    ((Padle.new (GridPosition.new 0 0)).body.any fun (s : Segment) => s.pos.y < 0) = true := by
  constructor
  · show ((([0, 1, 2, 3, 4] : List Nat).map fun seg_number =>
        Segment.new (GridPosition.new pos.x (pos.y - seg_number))).map
          fun (s : Segment) => s.pos) = _
    simp [Segment.new, GridPosition.new]
  · decide

set_option maxRecDepth 4000 in
/-- C7: from the default game state with the ball injected at (5, 5) (moving
`Left` by `Ball::new`), 23 ticks (one simulated second, `DESIRED_FPS`) with no
key events leave the ball exactly where 23 applications of
`new_from_move (·, Left)` take (5, 5) — position (12, 5), direction still
`Left`, so no collision altered the trajectory. -/
theorem game_23_ticks_pure_left :
    (GameState.updateTick^[DESIRED_FPS] (GameState.new (GridPosition.new 5 5))).ball.pos =
      (fun q => GridPosition.new_from_move q Direction.Left)^[DESIRED_FPS]
        (GridPosition.new 5 5) ∧
    (GameState.updateTick^[DESIRED_FPS] (GameState.new (GridPosition.new 5 5))).ball.pos =
      GridPosition.new 12 5 ∧
    (GameState.updateTick^[DESIRED_FPS] (GameState.new (GridPosition.new 5 5))).ball.dir =
      Direction.Left := by
  decide

/-- C5: a concrete double bounce. The ball at (1, 10) moving `Left` steps to
(0, 10), which `Padle.new (0, 10)` occupies (first check fires: invert to
`Right`, step to (1, 10)); `Padle.new (1, 10)` occupies (1, 10) (second check
fires: invert back to `Left`, step to (0, 10)). Net direction unchanged
(`Left`), with the two extra positional steps beyond the initial move. -/
theorem ball_double_bounce_concrete :
    (Padle.new (GridPosition.new 0 10)).meats_ball
      { pos := GridPosition.new_from_move (GridPosition.new 1 10) Direction.Left,
        dir := Direction.Left } = true ∧
    (Padle.new (GridPosition.new 1 10)).meats_ball
      { pos := GridPosition.new 1 10, dir := Direction.Right } = true ∧
    (Ball.update { pos := GridPosition.new 1 10, dir := Direction.Left }
        (Padle.new (GridPosition.new 0 10)) (Padle.new (GridPosition.new 1 10))).dir =
      Direction.Left ∧
    (Ball.update { pos := GridPosition.new 1 10, dir := Direction.Left }
        (Padle.new (GridPosition.new 0 10)) (Padle.new (GridPosition.new 1 10))).pos =
      GridPosition.new 0 10 := by
  decide

/-- Helper: a horizontal move (`Left` or `Right`) leaves the y-coordinate
unchanged. -/
theorem new_from_move_y_horiz (p : GridPosition) (d : Direction)
    (h : d = Direction.Left ∨ d = Direction.Right) :
    (GridPosition.new_from_move p d).y = p.y := by
  rcases h with rfl | rfl <;> rfl

/-- Helper: the collision block keeps a horizontally-moving ball horizontal
and never changes its y-coordinate. -/
theorem bounce_horiz (pad : Padle) (b : Ball)
    (h : b.dir = Direction.Left ∨ b.dir = Direction.Right) :
    ((Ball.bounce pad b).dir = Direction.Left ∨
      (Ball.bounce pad b).dir = Direction.Right) ∧
    (Ball.bounce pad b).pos.y = b.pos.y := by
  simp only [Ball.bounce]
  split
  · rcases h with h | h <;>
      simp [h, Direction.inverse, GridPosition.new_from_move, GridPosition.new]
  · exact ⟨h, rfl⟩

/-- C10: for any ball moving `Left` or `Right` and any two paddles,
`Ball::update` keeps the direction in {`Left`, `Right`} and never changes the
y-coordinate; `Ball::new` fixes the direction to `Left`, so every reachable
ball moves only horizontally and its row never changes. -/
theorem ball_horizontal_invariant (b : Ball) (p1 p2 : Padle) (pos : GridPosition)
    (hd : b.dir = Direction.Left ∨ b.dir = Direction.Right) :
    ((b.update p1 p2).dir = Direction.Left ∨ (b.update p1 p2).dir = Direction.Right) ∧
    (b.update p1 p2).pos.y = b.pos.y ∧
    (Ball.new pos).dir = Direction.Left := by
  simp only [Ball.update]
  have k1 := bounce_horiz p1 { b with pos := GridPosition.new_from_move b.pos b.dir } hd
  have k2 := bounce_horiz p2
    (Ball.bounce p1 { b with pos := GridPosition.new_from_move b.pos b.dir }) k1.1
  refine ⟨k2.1, ?_, rfl⟩
  rw [k2.2, k1.2]
  exact new_from_move_y_horiz b.pos b.dir hd

/-- Witness for C10: the ball at (5, 5) moving `Left` (as built by
`Ball::new`) against the two default paddles. -/
theorem ball_horizontal_invariant_witness :
    ((Ball.new (GridPosition.new 5 5)).dir = Direction.Left ∨
      (Ball.new (GridPosition.new 5 5)).dir = Direction.Right) ∧
    ((((Ball.new (GridPosition.new 5 5)).update (Padle.new (GridPosition.new 0 10))
          (Padle.new (GridPosition.new 29 10))).dir = Direction.Left ∨
       ((Ball.new (GridPosition.new 5 5)).update (Padle.new (GridPosition.new 0 10))
          (Padle.new (GridPosition.new 29 10))).dir = Direction.Right) ∧
     ((Ball.new (GridPosition.new 5 5)).update (Padle.new (GridPosition.new 0 10))
        (Padle.new (GridPosition.new 29 10))).pos.y = (Ball.new (GridPosition.new 5 5)).pos.y ∧
     (Ball.new (GridPosition.new 7 7)).dir = Direction.Left) :=
  ⟨Or.inl (by decide),
   ball_horizontal_invariant (Ball.new (GridPosition.new 5 5))
     (Padle.new (GridPosition.new 0 10)) (Padle.new (GridPosition.new 29 10))
     (GridPosition.new 7 7) (Or.inl (by decide))⟩

/-- C1: if the ball moves `Left` into a cell occupied by `padle1` (a column
paddle, all of whose segments share one x-coordinate, as every paddle built
by `Padle::new` is), and `padle2` does not occupy the cell one step `Right`
of the collision point (otherwise the second collision check would bounce
again), then `Ball::update` inverts the direction to `Right` and moves one
more cell `Right`: the ball ends one cell right of the collision point and
not inside `padle1`. -/
theorem ball_left_bounce_padle1 (b : Ball) (padle1 padle2 : Padle)
    (hd : b.dir = Direction.Left)
    (h1 : padle1.meats_ball
        { pos := GridPosition.new_from_move b.pos b.dir, dir := b.dir } = true)
    (hx : ∀ s1 ∈ padle1.body, ∀ s2 ∈ padle1.body, s1.pos.x = s2.pos.x)
    (h2 : padle2.meats_ball
        { pos := GridPosition.new_from_move
            (GridPosition.new_from_move b.pos b.dir) Direction.Right,
          dir := Direction.Right } = false) :
    (b.update padle1 padle2).dir = Direction.Right ∧
    (b.update padle1 padle2).pos =
      GridPosition.new_from_move (GridPosition.new_from_move b.pos b.dir) Direction.Right ∧
    padle1.meats_ball (b.update padle1 padle2) = false := by
  obtain ⟨bpos, bdir⟩ := b
  simp only at hd
  subst hd
  simp only [Ball.update, Ball.bounce, Direction.inverse] at *
  rw [if_pos h1] at *
  simp only [Direction.inverse] at *
  rw [if_neg (by rw [h2]; exact Bool.false_ne_true)] at *
  refine ⟨rfl, rfl, ?_⟩
  simp only [Padle.meats_ball, List.any_eq_true, decide_eq_true_eq] at h1
  obtain ⟨s0, hs0, hps0⟩ := h1
  simp only [Padle.meats_ball, List.any_eq_false, decide_eq_true_eq]
  intro s hs heq
  have hxx : s.pos.x = s0.pos.x := hx s hs s0 hs0
  rw [heq, hps0] at hxx
  simp only [GridPosition.new_from_move, GridPosition.new, GRID_SIZE] at hxx
  omega

/-- Witness for C1: the ball at (1, 10) moving `Left` hits the default left
paddle `Padle.new (0, 10)` and ends at (1, 10) moving `Right`, outside the
paddle. -/
theorem ball_left_bounce_padle1_witness :
    ((Ball.new (GridPosition.new 1 10)).dir = Direction.Left ∧
     (Padle.new (GridPosition.new 0 10)).meats_ball
       { pos := GridPosition.new_from_move (Ball.new (GridPosition.new 1 10)).pos
           (Ball.new (GridPosition.new 1 10)).dir,
         dir := (Ball.new (GridPosition.new 1 10)).dir } = true ∧
     (Padle.new (GridPosition.new 29 10)).meats_ball
       { pos := GridPosition.new_from_move
           (GridPosition.new_from_move (Ball.new (GridPosition.new 1 10)).pos
             (Ball.new (GridPosition.new 1 10)).dir) Direction.Right,
         dir := Direction.Right } = false) ∧
    (((Ball.new (GridPosition.new 1 10)).update (Padle.new (GridPosition.new 0 10))
        (Padle.new (GridPosition.new 29 10))).dir = Direction.Right ∧
     ((Ball.new (GridPosition.new 1 10)).update (Padle.new (GridPosition.new 0 10))
        (Padle.new (GridPosition.new 29 10))).pos =
       GridPosition.new_from_move
         (GridPosition.new_from_move (Ball.new (GridPosition.new 1 10)).pos
           (Ball.new (GridPosition.new 1 10)).dir) Direction.Right ∧
     (Padle.new (GridPosition.new 0 10)).meats_ball
       ((Ball.new (GridPosition.new 1 10)).update (Padle.new (GridPosition.new 0 10))
         (Padle.new (GridPosition.new 29 10))) = false) :=
  ⟨⟨by decide, by decide, by decide⟩,
   ball_left_bounce_padle1 (Ball.new (GridPosition.new 1 10))
     (Padle.new (GridPosition.new 0 10)) (Padle.new (GridPosition.new 29 10))
     (by decide) (by decide) (by decide) (by decide)⟩

/-- C6: a key-down event for `W` sets `padle1.dir` to `Up` and leaves
`padle2` untouched; on the next tick `Padle::update` consumes the pending
direction back to `None` (one shot) while `padle2` (whose `dir` is `None`) is
unchanged; and a `dir` that is neither `Up` nor `Down` is never reset —
`Padle::update` is then the identity. -/
theorem key_w_one_shot (g : GameState) (p : Padle)
    (hgo : g.gameover = false) (hb : g.padle1.body ≠ [])
    (h2 : g.padle2.dir = Direction.None)
    (hp1 : p.dir ≠ Direction.Up) (hp2 : p.dir ≠ Direction.Down) :
    (g.key_down_event KeyCode.W).padle1.dir = Direction.Up ∧
    (g.key_down_event KeyCode.W).padle2 = g.padle2 ∧
    (g.key_down_event KeyCode.W).updateTick.padle1.dir = Direction.None ∧
    (g.key_down_event KeyCode.W).updateTick.padle2 = g.padle2 ∧
    p.update = p := by
  have hkey : g.key_down_event KeyCode.W =
      { g with padle1 := { g.padle1 with dir := Direction.Up } } := rfl
  rw [hkey]
  have hp2eq : g.padle2.update = g.padle2 :=
    Padle.update_of_dir_not_ud _ (by simp [h2]) (by simp [h2])
  refine ⟨rfl, rfl, ?_, ?_, Padle.update_of_dir_not_ud p hp1 hp2⟩
  · simp only [GameState.updateTick]
    rw [if_neg (by simp [hgo])]
    exact Padle.update_dir_up _ rfl hb
  · simp only [GameState.updateTick]
    rw [if_neg (by simp [hgo])]
    exact hp2eq

/-- Witness for C6: the default game state (ball injected at (5, 5)) and a
paddle with `dir = None`. -/
theorem key_w_one_shot_witness :
    ((GameState.new (GridPosition.new 5 5)).gameover = false ∧
     (GameState.new (GridPosition.new 5 5)).padle1.body ≠ [] ∧
     (GameState.new (GridPosition.new 5 5)).padle2.dir = Direction.None ∧
     (Padle.new (GridPosition.new 0 10)).dir ≠ Direction.Up ∧
     (Padle.new (GridPosition.new 0 10)).dir ≠ Direction.Down) ∧
    (((GameState.new (GridPosition.new 5 5)).key_down_event KeyCode.W).padle1.dir =
       Direction.Up ∧
     ((GameState.new (GridPosition.new 5 5)).key_down_event KeyCode.W).padle2 =
       (GameState.new (GridPosition.new 5 5)).padle2 ∧
     ((GameState.new (GridPosition.new 5 5)).key_down_event KeyCode.W).updateTick.padle1.dir =
       Direction.None ∧
     ((GameState.new (GridPosition.new 5 5)).key_down_event KeyCode.W).updateTick.padle2 =
       (GameState.new (GridPosition.new 5 5)).padle2 ∧
     (Padle.new (GridPosition.new 0 10)).update = Padle.new (GridPosition.new 0 10)) :=
  ⟨⟨by decide, by decide, by decide, by decide, by decide⟩,
   key_w_one_shot (GameState.new (GridPosition.new 5 5)) (Padle.new (GridPosition.new 0 10))
     (by decide) (by decide) (by decide) (by decide) (by decide)⟩
